import Mathlib

/-!
Shallow embedding of the CARLA semantic-lidar scan/classify pipeline
(`RayCastSemanticLidar.cpp`) and the packed colour quad (`Vector4DuInt.h`).

Modelling conventions:
* `float` values are modelled as `ℚ` (exact arithmetic at integer-valued and
  dyadic inputs, which is where every theorem below is evaluated);
* unsigned machine integers are modelled as `ℕ`;
* `std::fmod` is modelled by `cFmod` (truncated division remainder);
* `FMath::RoundHalfFromZero` is modelled by `roundHalfFromZero`;
* a `static_cast<uint8_t>` of a float is modelled by `u8cast` (truncation
  toward zero, then reduction mod 256 — exact on the defined range `[0, 256)`);
* a `UE_LOG(..., Fatal, ...)` halts the process, so any code after it in the
  same control path is unreachable; functions that can reach a `Fatal` log are
  embedded with result type `Except Unit _`, where `Except.error ()` marks the
  halt;
* host collaborators (scene query, UV lookup, material resolution, dot product
  of the normalised incidence vector with the surface normal) are oracles: their
  outcomes are carried as data on the hit, or passed as a function parameter.
-/

/-- Truncation toward zero of a rational, as C performs when converting a
floating value to an integer type. -/
def truncQ (q : ℚ) : ℤ := if 0 ≤ q then ⌊q⌋ else -⌊-q⌋

/-- `static_cast<uint8_t>` applied to a float value: truncation toward zero,
reduced mod 256 (exact model on the defined range `[0, 256)`). -/
def u8cast (q : ℚ) : ℕ := (truncQ q).toNat % 256

/-- `FMath::RoundHalfFromZero` on a float value: rounds to the nearest integer,
halves away from zero. -/
def roundHalfFromZero (q : ℚ) : ℤ := if 0 ≤ q then ⌊q + 1 / 2⌋ else ⌈q - 1 / 2⌉

/-- `wrap(v, m) = v mod m` with result in `[0, m)` for `m > 0` (floor-division
remainder).  This is the wrapping operation named by the specification. -/
def wrapQ (v m : ℚ) : ℚ := v - m * ⌊v / m⌋

/-- `std::fmod`: remainder of truncated division, `x - m * trunc(x / m)`.
Agrees with `wrapQ` on nonnegative `x` and positive `m`. -/
def cFmod (x m : ℚ) : ℚ := x - m * (truncQ (x / m) : ℚ)

/-- `carla::geom::Vector4DuInt`: four 8-bit unsigned channels (components are
kept in `[0, 256)` by every constructor use below). -/
structure Vector4DuInt where
  x : ℕ
  y : ℕ
  z : ℕ
  w : ℕ
deriving DecidableEq

/-- Unreal `FColor`: an RGBA quadruple of 8-bit channels. -/
structure FColor where
  R : ℕ
  G : ℕ
  B : ℕ
  A : ℕ
deriving DecidableEq

/-- One entry of `UMaterialInstance::ScalarParameterValues`:
`ParameterInfo.Name` and `ParameterValue`. -/
structure FScalarParameterValue where
  Name : String
  ParameterValue : ℚ
deriving DecidableEq

/-- One entry of `UMaterialInstance::VectorParameterValues`.  The classifier
only ever reads the number of entries, never a value. -/
structure FVectorParameterValue where
  value : ℚ × ℚ × ℚ × ℚ
deriving DecidableEq

/-- `UMaterialInstance`, restricted to the three parameter lists the classifier
inspects.  A texture parameter is represented by the RGBA8 colour its sampler
(`GetColorFromTexture`) would return at the hit's UV coordinates; the sampling
calls themselves are commented out in the source, so the classifier never
reads these colours. -/
structure UMaterialInstance where
  TextureParameterValues : List FColor
  ScalarParameterValues : List FScalarParameterValue
  VectorParameterValues : List FVectorParameterValue
deriving DecidableEq

/-- `UMaterialInterface` as seen by the classifier: either a material for which
`Cast<UMaterialInstance>` fails, or a genuine material instance. -/
inductive UMaterialInterface where
  | notInstance
  | inst (materialInstance : UMaterialInstance)
deriving DecidableEq

/-- The struck static-mesh component together with the outcomes of the two
per-hit collaborator calls made on it: `UGameplayStatics::FindCollisionUV`
(`CollisionUV`, `none` when the lookup reports failure) and
`GetMaterialFromCollisionFaceIndex` (`Material`, `none` for a null
`UMaterialInterface`). -/
structure UStaticMeshComponentHit where
  FaceIndex : ℤ
  CollisionUV : Option (ℚ × ℚ)
  Material : Option UMaterialInterface
deriving DecidableEq

/-- `FHitResult` as consumed by the classifier: blocking flag, the
`TraceEnd` payload `(verticalAngle, horizontalAngle, distance-or-zero)` written
by `ShootLaser`, the raw hit distance, the struck component's
`CustomDepthStencilValue`, and the result of
`Cast<UStaticMeshComponent>(GetComponent())` (`none` when the cast fails). -/
structure FHitResult where
  bBlockingHit : Bool
  TraceEnd : ℚ × ℚ × ℚ
  Distance : ℚ
  CustomDepthStencilValue : ℕ
  StaticMeshComp : Option UStaticMeshComponentHit
deriving DecidableEq

/-- `FSemanticDetection`: one output record per ray. -/
structure FSemanticDetection where
  point : ℚ × ℚ × ℚ
  cos_inc_angle : ℚ
  object_idx : ℕ
  object_tag : ℕ
  base_color : Vector4DuInt
  ORME : Vector4DuInt
deriving DecidableEq

/-- The local `FColor textureColor = FColor(0, 0, 0, 0)` of
`ComputeRawDetectionFromMaterialInstance`.  Every `GetColorFromTexture` call
that would overwrite it is commented out in the source, so it keeps this
initial value on every path and is hoisted to a constant here. -/
def textureColor : FColor := ⟨0, 0, 0, 0⟩

/-- `ARayCastSemanticLidar::ComputeRawDetectionFromMaterialInstance`.
The two `UE_LOG(..., Fatal, ...)` statements (the vector-parameter branch and
the default texture-count branch) halt the process, so the assignments
textually following the first one are unreachable; both paths are embedded as
`Except.error ()`. -/
def ComputeRawDetectionFromMaterialInstance (Detection : FSemanticDetection)
    (materialInstance : UMaterialInstance) : Except Unit FSemanticDetection :=
  match materialInstance.TextureParameterValues.length with
  | 0 =>
    match materialInstance.ScalarParameterValues with
    | [] =>
      match materialInstance.VectorParameterValues.length with
      | 0 =>
        -- error code 6
        Except.ok { Detection with
          base_color := ⟨0, 0, 0, 0⟩, ORME := ⟨0, 0, 0, 0⟩, object_idx := 6 }
      | _ + 1 =>
        -- UE_LOG(LogCarla, Fatal, ...) halts before the error-code-7
        -- assignments, which are therefore dead code
        Except.error ()
    | p0 :: _ =>
      if p0.Name = "Transparency" then
        let alpha : ℕ := u8cast (p0.ParameterValue * 256)
        Except.ok { Detection with
          ORME := ⟨textureColor.R, textureColor.G, textureColor.B, textureColor.A⟩,
          base_color := ⟨textureColor.R, textureColor.G, textureColor.B, 255 - alpha⟩ }
      else
        -- error code 8
        Except.ok { Detection with
          base_color := ⟨0, 0, 0, 0⟩, ORME := ⟨0, 0, 0, 0⟩, object_idx := 8 }
  | 1 | 2 =>
    Except.ok { Detection with
      ORME := ⟨textureColor.R, textureColor.G, textureColor.B, textureColor.A⟩,
      base_color := ⟨textureColor.R, textureColor.G, textureColor.B, textureColor.A⟩ }
  | 3 | 4 | 13 =>
    Except.ok { Detection with
      base_color := ⟨textureColor.R, textureColor.G, textureColor.B, textureColor.A⟩,
      ORME := ⟨textureColor.R, textureColor.G, textureColor.B, textureColor.A⟩ }
  | _ =>
    -- texture-parameter count not in {0,1,2,3,4,13}:
    -- UE_LOG(LogCarla, Fatal, ...) halts the process
    Except.error ()

/-- `ARayCastSemanticLidar::ComputeRawDetectionFromComponent` (the `HitInfo`
fields it consumes — face index and UV-lookup outcome — are carried on the
component record). -/
def ComputeRawDetectionFromComponent (Detection : FSemanticDetection)
    (Component : UStaticMeshComponentHit) : Except Unit FSemanticDetection :=
  if Component.FaceIndex = -1 then
    -- error code 2
    Except.ok { Detection with
      base_color := ⟨0, 0, 0, 0⟩, ORME := ⟨0, 0, 0, 0⟩, object_idx := 2 }
  else
    match Component.CollisionUV with
    | none =>
      -- error code 3
      Except.ok { Detection with
        base_color := ⟨0, 0, 0, 0⟩, ORME := ⟨0, 0, 0, 0⟩, object_idx := 3 }
    | some _ =>
      match Component.Material with
      | none =>
        -- error code 4
        Except.ok { Detection with
          base_color := ⟨0, 0, 0, 0⟩, ORME := ⟨0, 0, 0, 0⟩, object_idx := 4 }
      | some UMaterialInterface.notInstance =>
        -- error code 5
        Except.ok { Detection with
          base_color := ⟨0, 0, 0, 0⟩, ORME := ⟨0, 0, 0, 0⟩, object_idx := 5 }
      | some (UMaterialInterface.inst materialInstance) =>
        ComputeRawDetectionFromMaterialInstance Detection materialInstance

/-- `ARayCastSemanticLidar::ComputeRawDetection`.  `cosIncOf` is the oracle for
`FVector::DotProduct(-(HitPoint - SensorLoc).GetSafeNormal(), ImpactNormal)`,
the one piece of 3-D float geometry kept abstract. -/
def ComputeRawDetection (cosIncOf : FHitResult → ℚ) (HitInfo : FHitResult) :
    Except Unit FSemanticDetection :=
  if HitInfo.bBlockingHit then
    let Detection : FSemanticDetection :=
      { point := HitInfo.TraceEnd
        cos_inc_angle := cosIncOf HitInfo
        object_idx := 0
        object_tag := HitInfo.CustomDepthStencilValue
        base_color := ⟨0, 0, 0, 0⟩
        ORME := ⟨0, 0, 0, 0⟩ }
    match HitInfo.StaticMeshComp with
    | some comp => ComputeRawDetectionFromComponent Detection comp
    | none =>
      -- error code 1: component is not a static mesh; note base_color (1,0,0,0)
      Except.ok { Detection with
        base_color := ⟨1, 0, 0, 0⟩, ORME := ⟨0, 0, 0, 0⟩, object_idx := 1 }
  else
    Except.ok { point := HitInfo.TraceEnd, cos_inc_angle := 2, object_idx := 0,
                object_tag := 0, base_color := ⟨0, 0, 0, 0⟩, ORME := ⟨0, 0, 0, 0⟩ }

/-- `FLidarDescription`: the sensor configuration fields the scan pipeline
reads. -/
structure FLidarDescription where
  Channels : ℕ
  PointsPerSecond : ℚ
  RotationFrequency : ℚ
  HorizontalFov : ℚ
  UpperFovLimit : ℚ
  LowerFovLimit : ℚ
  Range : ℚ
deriving DecidableEq

/-- The local `DeltaAngle` of `ARayCastSemanticLidar::CreateLasers`:
`(UpperFovLimit - LowerFovLimit) / (Channels - 1)`, zero for a single
channel. -/
def DeltaAngle (d : FLidarDescription) : ℚ :=
  if d.Channels = 1 then 0
  else (d.UpperFovLimit - d.LowerFovLimit) / ((d.Channels - 1 : ℕ) : ℚ)

/-- `ARayCastSemanticLidar::CreateLasers`: one vertical angle per channel,
`UpperFovLimit - i * DeltaAngle` for channel index `i`. -/
def CreateLasers (d : FLidarDescription) : List ℚ :=
  (List.range d.Channels).map (fun (i : ℕ) => d.UpperFovLimit - (i : ℚ) * DeltaAngle d)

/-- `PointsToScanWithOneLaser = FMath::RoundHalfFromZero(PointsPerSecond *
DeltaTime / Channels)` stored into a `uint32`. -/
def PointsToScanWithOneLaser (d : FLidarDescription) (DeltaTime : ℚ) : ℕ :=
  (roundHalfFromZero (d.PointsPerSecond * DeltaTime / (d.Channels : ℚ))).toNat

/-- `AngleDistanceOfTick = RotationFrequency * HorizontalFov * DeltaTime`. -/
def AngleDistanceOfTick (d : FLidarDescription) (DeltaTime : ℚ) : ℚ :=
  d.RotationFrequency * d.HorizontalFov * DeltaTime

/-- `AngleDistanceOfLaserMeasure = AngleDistanceOfTick /
PointsToScanWithOneLaser`. -/
def AngleDistanceOfLaserMeasure (d : FLidarDescription) (DeltaTime : ℚ) : ℚ :=
  AngleDistanceOfTick d DeltaTime / (PointsToScanWithOneLaser d DeltaTime : ℚ)

/-- The horizontal angle of sample `j` on a tick starting at
`CurrentHorizontalAngle`:
`std::fmod(Current + Step * j, HorizontalFov) - HorizontalFov / 2`. -/
def HorizAngle (d : FLidarDescription) (DeltaTime : ℚ) (CurrentHorizontalAngle : ℚ)
    (j : ℕ) : ℚ :=
  cFmod (CurrentHorizontalAngle + AngleDistanceOfLaserMeasure d DeltaTime * (j : ℚ))
      d.HorizontalFov
    - d.HorizontalFov / 2

/-- `ARayCastSemanticLidar::ShootLaser`: queries the scene (an oracle from the
two firing angles to the raw `FHitResult` of the line trace) and overwrites
`TraceEnd` with `(VerticalAngle, HorizontalAngle, Distance)` on a blocking hit
and `(VerticalAngle, HorizontalAngle, 0)` on a miss.  It always produces a
hit record (the function returns `true` unconditionally). -/
def ShootLaser (scene : ℚ → ℚ → FHitResult) (VerticalAngle HorizontalAngle : ℚ) :
    FHitResult :=
  let HitInfo := scene VerticalAngle HorizontalAngle
  if HitInfo.bBlockingHit then
    { HitInfo with TraceEnd := (VerticalAngle, HorizontalAngle, HitInfo.Distance) }
  else
    { HitInfo with TraceEnd := (VerticalAngle, HorizontalAngle, 0) }

/-- The per-channel inner loop of `SimulateLidar`: one `ShootLaser` +
`WritePointAsync` per sample index in `[0, PointsToScanWithOneLaser)`; the
commented-out preprocess gate never drops a ray. -/
def RecordedHitsOfChannel (scene : ℚ → ℚ → FHitResult) (d : FLidarDescription)
    (DeltaTime CurrentHorizontalAngle : ℚ) (LaserAngles : List ℚ)
    (idxChannel : ℕ) : List FHitResult :=
  (List.range (PointsToScanWithOneLaser d DeltaTime)).map (fun j =>
    ShootLaser scene (LaserAngles.getD idxChannel 0)
      (HorizAngle d DeltaTime CurrentHorizontalAngle j))

/-- `FSemanticLidarData` as assembled for one tick: the per-channel detection
counts header and the flattened, channel-major detection buffer. -/
structure FSemanticLidarData where
  PointsPerChannel : List ℕ
  points : List FSemanticDetection
deriving DecidableEq

/-- `ARayCastSemanticLidar::ComputeAndSaveDetections`: records each channel's
hit count, then classifies every recorded hit in channel-major, sample order
and writes the counts header.  A `Fatal` log inside classification halts the
whole tick (`Except.error`). -/
def ComputeAndSaveDetections (cosIncOf : FHitResult → ℚ)
    (RecordedHits : List (List FHitResult)) : Except Unit FSemanticLidarData :=
  let PointsPerChannel := RecordedHits.map List.length
  do
    let points ← RecordedHits.flatten.mapM (ComputeRawDetection cosIncOf)
    return { PointsPerChannel := PointsPerChannel, points := points }

/-- One tick of `ARayCastSemanticLidar::SimulateLidar`.  When
`PointsToScanWithOneLaser` is zero the function warns and returns early:
no rays, no sweep, and the current horizontal angle is left unchanged.
Otherwise it records the per-channel hits, assembles the sweep and advances
the persistent horizontal angle to
`std::fmod(Current + AngleDistanceOfTick, HorizontalFov)`.
The angle is stored in radians (`ToRadians`) and read back with `ToDegrees`;
the conversion is an exact round trip at the mathematical level, so the state
is modelled in degrees throughout. -/
def SimulateLidar (cosIncOf : FHitResult → ℚ) (scene : ℚ → ℚ → FHitResult)
    (d : FLidarDescription) (DeltaTime CurrentHorizontalAngle : ℚ) :
    Except Unit (Option FSemanticLidarData × ℚ) :=
  if PointsToScanWithOneLaser d DeltaTime = 0 then
    Except.ok (none, CurrentHorizontalAngle)
  else do
    let hits := (List.range d.Channels).map
      (RecordedHitsOfChannel scene d DeltaTime CurrentHorizontalAngle (CreateLasers d))
    let data ← ComputeAndSaveDetections cosIncOf hits
    return (some data,
      cFmod (CurrentHorizontalAngle + AngleDistanceOfTick d DeltaTime) d.HorizontalFov)

/-- The horizontal-angle state update of one tick of `SimulateLidar`, in
isolation: unchanged on an early return (zero points), otherwise advanced and
wrapped by `std::fmod`. -/
def tickHorizontalAngle (d : FLidarDescription) (DeltaTime : ℚ) (cur : ℚ) : ℚ :=
  if PointsToScanWithOneLaser d DeltaTime = 0 then cur
  else cFmod (cur + AngleDistanceOfTick d DeltaTime) d.HorizontalFov

/-- The persistent horizontal angle after `N` ticks of fixed `DeltaTime`,
starting from the initial state `0`. -/
def horizontalAngleAfterTicks (d : FLidarDescription) (DeltaTime : ℚ) : ℕ → ℚ
  | 0 => 0
  | n + 1 => tickHorizontalAngle d DeltaTime (horizontalAngleAfterTicks d DeltaTime n)

/-- The detection record the miss branch of `ComputeRawDetection` produces. -/
def missDetection (HitInfo : FHitResult) : FSemanticDetection :=
  { point := HitInfo.TraceEnd, cos_inc_angle := 2, object_idx := 0, object_tag := 0,
    base_color := ⟨0, 0, 0, 0⟩, ORME := ⟨0, 0, 0, 0⟩ }

/-- A sample detection record, as it stands when the classifier hands it to the
material-inspection stage (tag already recorded, index still `0`). -/
def detInit : FSemanticDetection :=
  { point := (0, 0, 0), cos_inc_angle := 0, object_idx := 0, object_tag := 5,
    base_color := ⟨0, 0, 0, 0⟩, ORME := ⟨0, 0, 0, 0⟩ }

/-- Scalar-only material whose first scalar is named Transparency with value
`7/1024` (so `v * 256 = 7/4`, where truncation and rounding disagree). -/
def c1Mi : UMaterialInstance := ⟨[], [⟨"Transparency", 7 / 1024⟩], []⟩

/-- Scalar-only Transparency material with value `1/2`. -/
def c1MiW : UMaterialInstance := ⟨[], [⟨"Transparency", 1 / 2⟩], []⟩

/-- A blocking hit whose struck component is not resolvable as a static mesh. -/
def c2Hit : FHitResult := ⟨true, (30, 40, 7), 7, 42, none⟩

/-- Material instance with no texture and no scalar parameters but one vector
parameter. -/
def c3Mi : UMaterialInstance := ⟨[], [], [⟨(1, 1, 1, 1)⟩]⟩

/-- Material instance with three texture parameters holding two distinct
fixture colours at indices 0 and 2. -/
def c4Mi : UMaterialInstance := ⟨[⟨10, 0, 0, 0⟩, ⟨0, 0, 0, 0⟩, ⟨20, 0, 0, 0⟩], [], []⟩

/-- Configuration for which a `DeltaTime` of `1/4` yields zero points per laser
while the per-tick angular advance is `90` degrees. -/
def c5Cfg : FLidarDescription := ⟨1, 1, 1, 360, 0, 0, 100⟩

/-- The specification's end-to-end scenario configuration: one channel, ten
points per second, one revolution per second, 360-degree horizontal FOV. -/
def c5CfgW : FLidarDescription := ⟨1, 10, 1, 360, 0, 0, 100⟩

/-- A hit record for a ray that missed. -/
def exMissHit : FHitResult := ⟨false, (3, 4, 0), 0, 9, none⟩

/-- A scene in which every ray misses. -/
def missScene : ℚ → ℚ → FHitResult := fun _ _ => ⟨false, (0, 0, 0), 0, 0, none⟩

/-- Two-channel configuration with ten points per laser at `DeltaTime = 1`. -/
def c7Cfg : FLidarDescription := ⟨2, 20, 1, 360, 10, 0, 100⟩

/-- Two channels with equal upper and lower vertical limits. -/
def c8Cfg : FLidarDescription := ⟨2, 10, 1, 360, 5, 5, 100⟩

/-- Three channels spanning vertical limits 10 down to 4. -/
def c8CfgW : FLidarDescription := ⟨3, 10, 1, 360, 10, 4, 100⟩

/-- A blocking hit on a static-mesh component with no valid face index. -/
def c10Hit : FHitResult := ⟨true, (1, 2, 3), 3, 77, some ⟨-1, none, none⟩⟩

/-! ## Arithmetic facts about truncation, wrapping and `fmod` -/

theorem truncQ_of_nonneg {q : ℚ} (h : 0 ≤ q) : truncQ q = ⌊q⌋ := by
  unfold truncQ
  rw [if_pos h]

theorem cFmod_eq_wrapQ {x m : ℚ} (hx : 0 ≤ x) (hm : 0 < m) : cFmod x m = wrapQ x m := by
  unfold cFmod wrapQ
  rw [truncQ_of_nonneg (div_nonneg hx hm.le)]

theorem wrapQ_eq_fract {x m : ℚ} (hm : m ≠ 0) : wrapQ x m = m * Int.fract (x / m) := by
  unfold wrapQ Int.fract
  field_simp

theorem wrapQ_nonneg {x m : ℚ} (hm : 0 < m) : 0 ≤ wrapQ x m := by
  rw [wrapQ_eq_fract hm.ne']
  exact mul_nonneg hm.le (Int.fract_nonneg _)

theorem wrapQ_lt {x m : ℚ} (hm : 0 < m) : wrapQ x m < m := by
  rw [wrapQ_eq_fract hm.ne']
  calc m * Int.fract (x / m) < m * 1 := (mul_lt_mul_left hm).mpr (Int.fract_lt_one _)
    _ = m := mul_one m

/-- Wrapping is idempotent under accumulation: wrapping the running angle each
tick agrees with wrapping the total advance once. -/
theorem wrapQ_wrapQ_add {x a m : ℚ} (hm : m ≠ 0) :
    wrapQ (wrapQ x m + a) m = wrapQ (x + a) m := by
  unfold wrapQ
  have h1 : (x - m * ⌊x / m⌋ + a) / m = (x + a) / m - (⌊x / m⌋ : ℚ) := by
    field_simp
    ring
  rw [h1, Int.floor_sub_int]
  push_cast
  ring

/-! ## Structural facts about the classifier and the assembler -/

theorem ComputeRawDetection_miss (cosIncOf : FHitResult → ℚ) (HitInfo : FHitResult)
    (h : HitInfo.bBlockingHit = false) :
    ComputeRawDetection cosIncOf HitInfo = Except.ok (missDetection HitInfo) := by
  unfold ComputeRawDetection missDetection
  rw [h]
  simp

/-- Every successful branch of the material-inspection stage leaves
`object_tag` untouched. -/
theorem CRDFMI_object_tag {Detection : FSemanticDetection} {mi : UMaterialInstance}
    {det : FSemanticDetection}
    (h : ComputeRawDetectionFromMaterialInstance Detection mi = Except.ok det) :
    det.object_tag = Detection.object_tag := by
  unfold ComputeRawDetectionFromMaterialInstance at h
  repeat' split at h
  all_goals (try cases h)
  all_goals rfl

/-- Every successful branch of the component stage leaves `object_tag`
untouched. -/
theorem CRDFC_object_tag {Detection : FSemanticDetection} {comp : UStaticMeshComponentHit}
    {det : FSemanticDetection}
    (h : ComputeRawDetectionFromComponent Detection comp = Except.ok det) :
    det.object_tag = Detection.object_tag := by
  unfold ComputeRawDetectionFromComponent at h
  repeat' split at h
  all_goals (try cases h)
  all_goals (first | rfl | exact CRDFMI_object_tag h)

theorem mapM_ok_of_forall {α β : Type} (f : α → Except Unit β) (g : α → β)
    (l : List α) (h : ∀ x ∈ l, f x = Except.ok (g x)) :
    l.mapM f = Except.ok (l.map g) := by
  induction l with
  | nil => rfl
  | cons a l ih =>
    rw [List.mapM_cons, h a (List.mem_cons_self a l),
      ih (fun x hx => h x (List.mem_cons_of_mem a hx))]
    rfl

theorem ShootLaser_bBlockingHit (scene : ℚ → ℚ → FHitResult) (v ha : ℚ) :
    (ShootLaser scene v ha).bBlockingHit = (scene v ha).bBlockingHit := by
  simp only [ShootLaser]
  split <;> rfl

theorem ComputeAndSaveDetections_allMiss (cosIncOf : FHitResult → ℚ)
    (RecordedHits : List (List FHitResult))
    (h : ∀ hit ∈ RecordedHits.flatten, hit.bBlockingHit = false) :
    ComputeAndSaveDetections cosIncOf RecordedHits
      = Except.ok { PointsPerChannel := RecordedHits.map List.length,
                    points := RecordedHits.flatten.map missDetection } := by
  simp only [ComputeAndSaveDetections]
  rw [mapM_ok_of_forall _ missDetection _
    (fun hit hx => ComputeRawDetection_miss cosIncOf hit (h hit hx))]
  rfl

/-! ## Claim theorems -/

/-- Claim C1, counterexample: for the scalar-only Transparency material with
value `7/1024` (`v * 256 = 7/4`), the code truncates the cast and produces
alpha `255 - 1 = 254`, whereas the claimed formula `255 - round(v * 256)`
yields `253`. -/
theorem C1_counterexample :
    ComputeRawDetectionFromMaterialInstance detInit c1Mi
      = Except.ok { detInit with ORME := ⟨0, 0, 0, 0⟩, base_color := ⟨0, 0, 0, 254⟩ }
    ∧ 255 - round (((7 : ℚ) / 1024) * 256) ≠ (254 : ℤ) := by
  constructor
  · simp [ComputeRawDetectionFromMaterialInstance, c1Mi, detInit, textureColor,
      u8cast, truncQ]
    norm_num
  · norm_num [round_eq]

/-- Claim C1, amended: for a material with zero texture parameters whose first
scalar parameter is named Transparency with value `v`, the classifier keeps the
(unsampled, hence zero) texture-colour quad in `ORME` and stores it in
`base_color` with the alpha component replaced by
`255 - static_cast(uint8)(v * 256)` — truncation toward zero, not rounding,
and no clamping beyond the cast itself.  All other fields (including
`object_idx`) are untouched. -/
theorem C1_transparency_alpha (Detection : FSemanticDetection)
    (mi : UMaterialInstance) (p0 : FScalarParameterValue)
    (rest : List FScalarParameterValue)
    (htex : mi.TextureParameterValues = [])
    (hsc : mi.ScalarParameterValues = p0 :: rest)
    (hname : p0.Name = "Transparency") :
    ComputeRawDetectionFromMaterialInstance Detection mi
      = Except.ok { Detection with
          ORME := ⟨0, 0, 0, 0⟩,
          base_color := ⟨0, 0, 0, 255 - u8cast (p0.ParameterValue * 256)⟩ } := by
  unfold ComputeRawDetectionFromMaterialInstance
  rw [htex, hsc]
  simp [hname, textureColor]

/-- Claim C1, witness: Transparency value `1/2` gives alpha `255 - 128 = 127`. -/
theorem C1_transparency_alpha_witness :
    ComputeRawDetectionFromMaterialInstance detInit c1MiW
      = Except.ok { detInit with ORME := ⟨0, 0, 0, 0⟩, base_color := ⟨0, 0, 0, 127⟩ } := by
  rw [C1_transparency_alpha detInit c1MiW ⟨"Transparency", 1 / 2⟩ [] rfl rfl rfl]
  norm_num [u8cast, truncQ]
  decide

/-- Claim C2, counterexample: on a blocking hit with no resolvable static-mesh
component the classifier writes `base_color = (1, 0, 0, 0)`, not the zero quad
the claim states. -/
theorem C2_counterexample :
    ComputeRawDetection (fun _ => 0) c2Hit
      = Except.ok { point := (30, 40, 7), cos_inc_angle := 0, object_idx := 1,
                    object_tag := 42, base_color := ⟨1, 0, 0, 0⟩, ORME := ⟨0, 0, 0, 0⟩ }
    ∧ (⟨1, 0, 0, 0⟩ : Vector4DuInt) ≠ ⟨0, 0, 0, 0⟩ := by
  constructor
  · rfl
  · decide

/-- Claim C2, amended: on a blocking hit where no component is resolvable on
the struck surface, the detection has `object_idx = 1`, `ORME` zero,
`base_color = (1, 0, 0, 0)`, and `object_tag` taken from the surface's custom
depth stencil value (recorded before the resolution failure). -/
theorem C2_component_fallback (cosIncOf : FHitResult → ℚ) (HitInfo : FHitResult)
    (hb : HitInfo.bBlockingHit = true) (hc : HitInfo.StaticMeshComp = none) :
    ComputeRawDetection cosIncOf HitInfo
      = Except.ok { point := HitInfo.TraceEnd, cos_inc_angle := cosIncOf HitInfo,
                    object_idx := 1, object_tag := HitInfo.CustomDepthStencilValue,
                    base_color := ⟨1, 0, 0, 0⟩, ORME := ⟨0, 0, 0, 0⟩ } := by
  unfold ComputeRawDetection
  rw [hb, hc]
  simp

/-- Claim C2, witness: the concrete hit `c2Hit` (stencil value 42). -/
theorem C2_component_fallback_witness :
    ComputeRawDetection (fun _ => 1) c2Hit
      = Except.ok { point := (30, 40, 7), cos_inc_angle := 1, object_idx := 1,
                    object_tag := 42, base_color := ⟨1, 0, 0, 0⟩, ORME := ⟨0, 0, 0, 0⟩ } :=
  C2_component_fallback (fun _ => 1) c2Hit rfl rfl

/-- Claim C3: on a material instance with zero texture parameters, zero scalar
parameters and one vector parameter, the classifier reaches the
`UE_LOG(LogCarla, Fatal, ...)` call before the `object_idx = 7` assignments,
so the function does not return normally: the fallback the claim (and the
code's own dead assignments) describe is never produced. -/
theorem C3_vector_params_fatal :
    ComputeRawDetectionFromMaterialInstance detInit c3Mi = Except.error () := rfl

/-- Claim C4, counterexample: with three texture parameters holding the
distinct fixture colours `(10,0,0,0)` (index 0) and `(20,0,0,0)` (index 2),
the classifier still produces the zero quad for both `base_color` and `ORME`
(the sampling calls are disabled), so the two outputs are equal rather than
carrying the two distinct colours. -/
theorem C4_counterexample :
    ComputeRawDetectionFromMaterialInstance detInit c4Mi
      = Except.ok { detInit with base_color := ⟨0, 0, 0, 0⟩, ORME := ⟨0, 0, 0, 0⟩ }
    ∧ (⟨0, 0, 0, 0⟩ : Vector4DuInt) ≠ ⟨10, 0, 0, 0⟩
    ∧ (⟨0, 0, 0, 0⟩ : Vector4DuInt) ≠ ⟨20, 0, 0, 0⟩ :=
  ⟨rfl, by decide, by decide⟩

/-- Claim C4, amended: for every material instance with exactly 3, 4 or 13
texture parameters, the classifier returns normally with
`base_color = ORME = (0, 0, 0, 0)` regardless of the textures' contents,
because the `GetColorFromTexture` calls are commented out and the initial zero
`textureColor` is stored in both quads. -/
theorem C4_multi_texture_quads (Detection : FSemanticDetection)
    (mi : UMaterialInstance)
    (h : mi.TextureParameterValues.length = 3 ∨ mi.TextureParameterValues.length = 4
        ∨ mi.TextureParameterValues.length = 13) :
    ComputeRawDetectionFromMaterialInstance Detection mi
      = Except.ok { Detection with base_color := ⟨0, 0, 0, 0⟩, ORME := ⟨0, 0, 0, 0⟩ } := by
  unfold ComputeRawDetectionFromMaterialInstance
  rcases h with h | h | h <;> rw [h] <;> simp [textureColor]

/-- Claim C4, witness: the three-texture fixture material. -/
theorem C4_multi_texture_quads_witness :
    ComputeRawDetectionFromMaterialInstance detInit c4Mi
      = Except.ok { detInit with base_color := ⟨0, 0, 0, 0⟩, ORME := ⟨0, 0, 0, 0⟩ } :=
  C4_multi_texture_quads detInit c4Mi (Or.inl rfl)

/-- Claim C5, counterexample: with one channel, one point per second, rotation
frequency 1 and `DeltaTime = 1/4`, the tick computes zero points per laser and
returns early, leaving the horizontal angle at `0` after one tick, whereas the
claimed formula `wrap(N * rotationFrequency * horizontalFov * DeltaTime, fov)`
gives `90`. -/
theorem C5_counterexample :
    PointsToScanWithOneLaser c5Cfg (1 / 4) = 0
    ∧ horizontalAngleAfterTicks c5Cfg (1 / 4) 1 = 0
    ∧ wrapQ ((1 : ℚ) * AngleDistanceOfTick c5Cfg (1 / 4)) c5Cfg.HorizontalFov = 90
    ∧ horizontalAngleAfterTicks c5Cfg (1 / 4) 1
        ≠ wrapQ ((1 : ℚ) * AngleDistanceOfTick c5Cfg (1 / 4)) c5Cfg.HorizontalFov := by
  have h : PointsToScanWithOneLaser c5Cfg (1 / 4) = 0 := by
    simp [PointsToScanWithOneLaser, roundHalfFromZero, c5Cfg]
    norm_num
  have h2 : horizontalAngleAfterTicks c5Cfg (1 / 4) 1 = 0 := by
    show tickHorizontalAngle c5Cfg (1 / 4) (horizontalAngleAfterTicks c5Cfg (1 / 4) 0) = 0
    unfold tickHorizontalAngle
    rw [if_pos h]
    rfl
  have h3 : wrapQ ((1 : ℚ) * AngleDistanceOfTick c5Cfg (1 / 4)) c5Cfg.HorizontalFov
      = 90 := by
    simp [wrapQ, AngleDistanceOfTick, c5Cfg]
    norm_num
  refine ⟨h, h2, h3, ?_⟩
  rw [h2, h3]
  norm_num

/-- Claim C5, amended: for fixed `DeltaTime` and rotation frequency, provided
every tick computes at least one point per laser, the persistent horizontal
angle after `N` ticks equals
`wrap(N * rotationFrequency * horizontalFov * DeltaTime, horizontalFov)`,
independently of the value of `pointsPerLaser`; a tick that computes zero
points per laser returns early and does not advance the angle. -/
theorem C5_angle_advance (d : FLidarDescription) (DeltaTime : ℚ)
    (hfov : 0 < d.HorizontalFov)
    (hA : 0 ≤ AngleDistanceOfTick d DeltaTime)
    (hppl : PointsToScanWithOneLaser d DeltaTime ≠ 0) (N : ℕ) :
    horizontalAngleAfterTicks d DeltaTime N
      = wrapQ ((N : ℚ) * AngleDistanceOfTick d DeltaTime) d.HorizontalFov := by
  induction N with
  | zero => simp [horizontalAngleAfterTicks, wrapQ]
  | succ n ih =>
    show tickHorizontalAngle d DeltaTime (horizontalAngleAfterTicks d DeltaTime n) = _
    rw [ih]
    unfold tickHorizontalAngle
    rw [if_neg hppl]
    rw [cFmod_eq_wrapQ (add_nonneg (wrapQ_nonneg hfov) hA) hfov]
    rw [wrapQ_wrapQ_add hfov.ne']
    push_cast
    ring_nf

/-- Claim C5, witness: two full-revolution ticks of the one-channel scenario
configuration. -/
theorem C5_angle_advance_witness :
    horizontalAngleAfterTicks c5CfgW 1 2
      = wrapQ (((2 : ℕ) : ℚ) * AngleDistanceOfTick c5CfgW 1) c5CfgW.HorizontalFov :=
  C5_angle_advance c5CfgW 1 (by norm_num [c5CfgW])
    (by norm_num [AngleDistanceOfTick, c5CfgW])
    (by norm_num [PointsToScanWithOneLaser, roundHalfFromZero, c5CfgW]) 2

/-- Claim C6: a raw hit whose blocking flag is false yields the sentinel
detection: `cos_inc_angle = 2`, `object_idx = 0`, `object_tag = 0`, and both
quads zero, with the angle payload preserved in `point`. -/
theorem C6_miss_detection (cosIncOf : FHitResult → ℚ) (HitInfo : FHitResult)
    (h : HitInfo.bBlockingHit = false) :
    ComputeRawDetection cosIncOf HitInfo
      = Except.ok { point := HitInfo.TraceEnd, cos_inc_angle := 2, object_idx := 0,
                    object_tag := 0, base_color := ⟨0, 0, 0, 0⟩, ORME := ⟨0, 0, 0, 0⟩ } :=
  ComputeRawDetection_miss cosIncOf HitInfo h

/-- Claim C6, witness: a concrete missed ray. -/
theorem C6_miss_detection_witness :
    ComputeRawDetection (fun _ => 0) exMissHit
      = Except.ok { point := (3, 4, 0), cos_inc_angle := 2, object_idx := 0,
                    object_tag := 0, base_color := ⟨0, 0, 0, 0⟩, ORME := ⟨0, 0, 0, 0⟩ } :=
  C6_miss_detection (fun _ => 0) exMissHit rfl

/-- Claim C7: on a tick with a positive point count, every channel records
exactly one raw hit per sample index (a ray is never dropped, whatever the
scene returns), and on a tick in which every ray misses the assembled sweep's
per-channel counts all equal `PointsToScanWithOneLaser` and every detection
has `object_idx = 0`. -/
theorem C7_every_ray_detected (cosIncOf : FHitResult → ℚ)
    (scene : ℚ → ℚ → FHitResult) (d : FLidarDescription) (DeltaTime cur : ℚ)
    (hppl : 0 < PointsToScanWithOneLaser d DeltaTime) :
    (∀ idxChannel,
        (RecordedHitsOfChannel scene d DeltaTime cur (CreateLasers d) idxChannel).length
          = PointsToScanWithOneLaser d DeltaTime)
    ∧ ((∀ v ha, (scene v ha).bBlockingHit = false) →
        ∃ data θ,
          SimulateLidar cosIncOf scene d DeltaTime cur = Except.ok (some data, θ)
          ∧ data.PointsPerChannel
              = List.replicate d.Channels (PointsToScanWithOneLaser d DeltaTime)
          ∧ ∀ det ∈ data.points, det.object_idx = 0) := by
  constructor
  · intro idxChannel
    unfold RecordedHitsOfChannel
    rw [List.length_map, List.length_range]
  · intro hmiss
    have hmem : ∀ hit ∈ ((List.range d.Channels).map
        (RecordedHitsOfChannel scene d DeltaTime cur (CreateLasers d))).flatten,
        hit.bBlockingHit = false := by
      intro hit hmemf
      rw [List.mem_flatten] at hmemf
      obtain ⟨l, hl, hhit⟩ := hmemf
      rw [List.mem_map] at hl
      obtain ⟨ch, _, rfl⟩ := hl
      unfold RecordedHitsOfChannel at hhit
      rw [List.mem_map] at hhit
      obtain ⟨j, _, rfl⟩ := hhit
      rw [ShootLaser_bBlockingHit]
      exact hmiss _ _
    refine ⟨{ PointsPerChannel := ((List.range d.Channels).map
                (RecordedHitsOfChannel scene d DeltaTime cur (CreateLasers d))).map
                  List.length,
              points := ((List.range d.Channels).map
                (RecordedHitsOfChannel scene d DeltaTime cur (CreateLasers d))).flatten.map
                  missDetection },
            cFmod (cur + AngleDistanceOfTick d DeltaTime) d.HorizontalFov, ?_, ?_, ?_⟩
    · simp only [SimulateLidar]
      rw [if_neg hppl.ne']
      rw [ComputeAndSaveDetections_allMiss cosIncOf _ hmem]
      rfl
    · show ((List.range d.Channels).map _).map List.length = _
      rw [List.map_map]
      rw [List.map_congr_left (fun x _ => by
        simp [RecordedHitsOfChannel] :
        ∀ x ∈ List.range d.Channels,
          (List.length ∘ RecordedHitsOfChannel scene d DeltaTime cur (CreateLasers d)) x
            = PointsToScanWithOneLaser d DeltaTime)]
      rw [List.map_const', List.length_range]
    · intro det hdet
      rw [List.mem_map] at hdet
      obtain ⟨hit, _, rfl⟩ := hdet
      rfl

/-- Claim C7, witness: the two-channel, ten-points-per-laser configuration in
an all-miss scene. -/
theorem C7_every_ray_detected_witness :
    (∀ idxChannel,
        (RecordedHitsOfChannel missScene c7Cfg 1 0 (CreateLasers c7Cfg) idxChannel).length
          = PointsToScanWithOneLaser c7Cfg 1)
    ∧ ((∀ v ha, (missScene v ha).bBlockingHit = false) →
        ∃ data θ,
          SimulateLidar (fun _ => 0) missScene c7Cfg 1 0 = Except.ok (some data, θ)
          ∧ data.PointsPerChannel
              = List.replicate c7Cfg.Channels (PointsToScanWithOneLaser c7Cfg 1)
          ∧ ∀ det ∈ data.points, det.object_idx = 0) :=
  C7_every_ray_detected (fun _ => 0) missScene c7Cfg 1 0
    (by norm_num [PointsToScanWithOneLaser, roundHalfFromZero, c7Cfg])

/-- Claim C8, counterexample: two channels with equal vertical limits satisfy
the stated invariant `upper ≥ lower`, yet `LaserAngles = [5, 5]` is not
strictly decreasing. -/
theorem C8_counterexample :
    1 < c8Cfg.Channels
    ∧ c8Cfg.LowerFovLimit ≤ c8Cfg.UpperFovLimit
    ∧ CreateLasers c8Cfg = [5, 5]
    ∧ ¬ (CreateLasers c8Cfg).Pairwise (fun a b => b < a) := by
  have h : CreateLasers c8Cfg = [5, 5] := by
    simp [CreateLasers, DeltaAngle, c8Cfg, List.range_succ]
  refine ⟨by norm_num [c8Cfg], by norm_num [c8Cfg], h, ?_⟩
  rw [h]
  simp

/-- Claim C8, amended: for every configuration with `Channels ≥ 1` and
`lower ≤ upper`, `LaserAngles` has length `Channels`; for a single channel it
equals `[upperLimit]`; its first element is exactly the upper limit; for more
than one channel its last element is exactly the lower limit; and it is
strictly decreasing whenever additionally `lower < upper` (with
`lower = upper` all entries coincide, so strict decrease fails). -/
theorem C8_laser_angles (d : FLidarDescription)
    (h1 : 1 ≤ d.Channels) (_h2 : d.LowerFovLimit ≤ d.UpperFovLimit) :
    (CreateLasers d).length = d.Channels
    ∧ (d.Channels = 1 → CreateLasers d = [d.UpperFovLimit])
    ∧ (CreateLasers d)[0]? = some d.UpperFovLimit
    ∧ (1 < d.Channels → (CreateLasers d)[d.Channels - 1]? = some d.LowerFovLimit)
    ∧ (1 < d.Channels → d.LowerFovLimit < d.UpperFovLimit →
        (CreateLasers d).Pairwise (fun a b => b < a)) := by
  refine ⟨?_, ?_, ?_, ?_, ?_⟩
  · rw [CreateLasers, List.length_map, List.length_range]
  · intro h
    simp [CreateLasers, DeltaAngle, h]
  · rw [CreateLasers, List.getElem?_map,
      List.getElem?_range (Nat.lt_of_lt_of_le Nat.zero_lt_one h1)]
    norm_num
  · intro hC
    have hlt : d.Channels - 1 < d.Channels :=
      Nat.sub_lt (Nat.lt_of_lt_of_le Nat.zero_lt_one hC.le) Nat.zero_lt_one
    have hne : ((d.Channels - 1 : ℕ) : ℚ) ≠ 0 :=
      Nat.cast_ne_zero.mpr (Nat.sub_ne_zero_of_lt hC)
    rw [CreateLasers, List.getElem?_map, List.getElem?_range hlt]
    rw [DeltaAngle, if_neg hC.ne']
    simp only [Option.map_some']
    congr 1
    have hne2 : ((d.Channels : ℚ) - 1) ≠ 0 := by
      have h3 : (1 : ℚ) < (d.Channels : ℚ) := by exact_mod_cast hC
      linarith
    field_simp
  · intro hC hul
    have hΔ : 0 < DeltaAngle d := by
      rw [DeltaAngle, if_neg hC.ne']
      exact div_pos (sub_pos.mpr hul) (Nat.cast_pos.mpr (Nat.sub_pos_of_lt hC))
    rw [CreateLasers, List.pairwise_map]
    refine List.Pairwise.imp ?_ (List.pairwise_lt_range d.Channels)
    intro i j hij
    have h3 : (i : ℚ) * DeltaAngle d < (j : ℚ) * DeltaAngle d :=
      mul_lt_mul_of_pos_right (Nat.cast_lt.mpr hij) hΔ
    linarith

/-- Claim C8, witness: three channels spanning 10 down to 4. -/
theorem C8_laser_angles_witness :
    (CreateLasers c8CfgW).length = c8CfgW.Channels
    ∧ (c8CfgW.Channels = 1 → CreateLasers c8CfgW = [c8CfgW.UpperFovLimit])
    ∧ (CreateLasers c8CfgW)[0]? = some c8CfgW.UpperFovLimit
    ∧ (1 < c8CfgW.Channels →
        (CreateLasers c8CfgW)[c8CfgW.Channels - 1]? = some c8CfgW.LowerFovLimit)
    ∧ (1 < c8CfgW.Channels → c8CfgW.LowerFovLimit < c8CfgW.UpperFovLimit →
        (CreateLasers c8CfgW).Pairwise (fun a b => b < a)) :=
  C8_laser_angles c8CfgW (by norm_num [c8CfgW]) (by norm_num [c8CfgW])

/-- Claim C9: on a tick starting at a nonnegative wrapped angle with
nonnegative angular advance, the horizontal angle of sample `j` equals
`wrap(current + j * angularStepPerSample, horizontalFov) - horizontalFov / 2`
with `wrap` the floor remainder into `[0, fov)`, and therefore lies in
`[-fov/2, fov/2)`. -/
theorem C9_sample_horizontal_angle (d : FLidarDescription) (DeltaTime cur : ℚ)
    (j : ℕ) (hfov : 0 < d.HorizontalFov) (hcur : 0 ≤ cur)
    (hA : 0 ≤ AngleDistanceOfTick d DeltaTime) :
    HorizAngle d DeltaTime cur j
        = wrapQ (cur + (j : ℚ) * AngleDistanceOfLaserMeasure d DeltaTime)
            d.HorizontalFov
          - d.HorizontalFov / 2
      ∧ -(d.HorizontalFov / 2) ≤ HorizAngle d DeltaTime cur j
      ∧ HorizAngle d DeltaTime cur j < d.HorizontalFov / 2 := by
  have hstep : 0 ≤ AngleDistanceOfLaserMeasure d DeltaTime :=
    div_nonneg hA (Nat.cast_nonneg _)
  have hx : 0 ≤ cur + AngleDistanceOfLaserMeasure d DeltaTime * (j : ℚ) :=
    add_nonneg hcur (mul_nonneg hstep (Nat.cast_nonneg _))
  have heq : HorizAngle d DeltaTime cur j
      = wrapQ (cur + (j : ℚ) * AngleDistanceOfLaserMeasure d DeltaTime)
          d.HorizontalFov - d.HorizontalFov / 2 := by
    unfold HorizAngle
    rw [cFmod_eq_wrapQ hx hfov, mul_comm]
  refine ⟨heq, ?_, ?_⟩
  · rw [heq]
    have := wrapQ_nonneg
      (x := cur + (j : ℚ) * AngleDistanceOfLaserMeasure d DeltaTime) hfov
    linarith
  · rw [heq]
    have := wrapQ_lt
      (x := cur + (j : ℚ) * AngleDistanceOfLaserMeasure d DeltaTime) hfov
    linarith

/-- Claim C9, witness: sample 3 of the one-channel scenario configuration
(step 36 degrees, so the angle is `108 - 180 = -72`). -/
theorem C9_sample_horizontal_angle_witness :
    HorizAngle c5CfgW 1 0 3
        = wrapQ (0 + ((3 : ℕ) : ℚ) * AngleDistanceOfLaserMeasure c5CfgW 1)
            c5CfgW.HorizontalFov
          - c5CfgW.HorizontalFov / 2
      ∧ -(c5CfgW.HorizontalFov / 2) ≤ HorizAngle c5CfgW 1 0 3
      ∧ HorizAngle c5CfgW 1 0 3 < c5CfgW.HorizontalFov / 2 :=
  C9_sample_horizontal_angle c5CfgW 1 0 3 (by norm_num [c5CfgW]) le_rfl
    (by norm_num [AngleDistanceOfTick, c5CfgW])

/-- Claim C10: whenever a blocking hit's classification returns a detection
(i.e. does not halt on a Fatal log), its `object_tag` equals the struck
component's custom depth stencil value, whatever classification branch was
taken: the fallback branches assign only `object_idx` and the two quads. -/
theorem C10_object_tag_from_stencil (cosIncOf : FHitResult → ℚ)
    (HitInfo : FHitResult) (det : FSemanticDetection)
    (hb : HitInfo.bBlockingHit = true)
    (hok : ComputeRawDetection cosIncOf HitInfo = Except.ok det) :
    det.object_tag = HitInfo.CustomDepthStencilValue := by
  unfold ComputeRawDetection at hok
  rw [hb] at hok
  simp only [if_true] at hok
  split at hok
  · exact CRDFC_object_tag hok
  · cases hok
    rfl

/-- Claim C10, witness: a blocking hit on a component with no valid face index
(stencil value 77, fallback branch 2). -/
theorem C10_object_tag_from_stencil_witness :
    ({ point := (1, 2, 3), cos_inc_angle := 0, object_idx := 2, object_tag := 77,
       base_color := ⟨0, 0, 0, 0⟩, ORME := ⟨0, 0, 0, 0⟩ } : FSemanticDetection).object_tag
      = c10Hit.CustomDepthStencilValue :=
  C10_object_tag_from_stencil (fun _ => 0) c10Hit _ rfl rfl
